import Mathlib

/-!
Shallow embedding of the vetpintar-be backend's business logic
(appointment scheduling-conflict check, invoice/payment reconciliation,
clinic-scoped reads, soft deletes) and proofs about it.

Conventions of the embedding:
* JavaScript numbers that only ever hold money amounts are modelled as `Rat`;
  minutes-of-day and durations are `Nat`.
* `Date` values are compared for equality / order only, so they are modelled
  as `Int` day / timestamp indices.
* A Prisma table is a `List` of records; `findFirst`/`findUnique` is
  `List.find?`, `findMany` is `List.filter` followed by sort and pagination,
  `update` is `List.map` with a conditional record update.
* Fallible service methods return `Except AppError α` together with the
  post-state and the list of Socket.IO events emitted
  (`io.to(room).emit(event, …)` is recorded as `⟨room, event⟩`).
* The JavaScript `x || d` default on numeric fields treats `0` as falsy;
  it is modelled by `jsNumOr` / `jsRatOr`, not by `Option.getD`.
-/

namespace VetPintar

/-- Appointment statuses (`AppointmentStatus` enum). -/
inductive AppointmentStatus
  | SCHEDULED
  | CONFIRMED
  | IN_PROGRESS
  | COMPLETED
  | CANCELLED
  | NO_SHOW
deriving DecidableEq, Repr

/-- Invoice statuses (`InvoiceStatus` enum). -/
inductive InvoiceStatus
  | DRAFT
  | SENT
  | PAID
  | PARTIAL
  | OVERDUE
  | CANCELLED
deriving DecidableEq, Repr

/-- Payment statuses (`PaymentStatus` enum); the services only ever
distinguish `SUCCESS` from the rest. -/
inductive PaymentStatus
  | PENDING
  | SUCCESS
  | FAILED
deriving DecidableEq, Repr

/-- Payment methods (`PaymentMethod` enum). -/
inductive PaymentMethod
  | CASH
  | TRANSFER
  | CREDIT_CARD
  | E_WALLET
  | XENDIT
deriving DecidableEq, Repr

/-- User roles (`role` enum on `User`). -/
inductive UserRole
  | OWNER
  | VETERINARIAN
  | ADMIN
  | STAFF
  | CUSTOMER
  | GUEST
  | SUPER_ADMIN
deriving DecidableEq, Repr

/-- An error thrown with `createError(status, message)`. -/
structure AppError where
  status : Nat
  message : String
deriving DecidableEq, Repr

/-- A Socket.IO emission `io.to(room).emit(event, …)`; the payload object is
not modelled, only the room and the event name. -/
structure SocketEvent where
  room : String
  event : String
deriving DecidableEq, Repr

/-! ## Time arithmetic of `checkScheduleConflict` -/

/-- The value `hours * 60 + minutes`, the minutes-of-day computed in
`checkScheduleConflict` from an `'HH:MM'` string already split into its two
numeric components. -/
def toMinutes (hours minutes : Nat) : Nat := hours * 60 + minutes

/-- A time interval on a single day: `startMinutes` is the parsed start,
`duration` the stored duration in minutes; the end is `start + duration`. -/
structure Slot where
  startMinutes : Nat
  duration : Nat
deriving DecidableEq, Repr

/-- The value `startMinutes + duration`, the `endMinutes` computed by
`checkScheduleConflict`. -/
def Slot.endMinutes (s : Slot) : Nat := s.startMinutes + s.duration

/-- The overlap disjunction of `checkScheduleConflict`:
`(startMinutes >= existingStartMinutes && startMinutes < existingEndMinutes) ||
 (endMinutes > existingStartMinutes && endMinutes <= existingEndMinutes) ||
 (startMinutes <= existingStartMinutes && endMinutes >= existingEndMinutes)`
with `req` the requested slot and `ex` the existing one. -/
def overlapCheck (req ex : Slot) : Bool :=
  (decide (req.startMinutes ≥ ex.startMinutes) && decide (req.startMinutes < ex.endMinutes)) ||
  (decide (req.endMinutes > ex.startMinutes) && decide (req.endMinutes ≤ ex.endMinutes)) ||
  (decide (req.startMinutes ≤ ex.startMinutes) && decide (req.endMinutes ≥ ex.endMinutes))

/-- The spec's interval-overlap rule `start_A < end_B && start_B < end_A`. -/
def specOverlap (a b : Slot) : Bool :=
  decide (a.startMinutes < b.endMinutes) && decide (b.startMinutes < a.endMinutes)

/-- C1: For intervals with positive durations, the three-way overlap
disjunction used by `checkScheduleConflict` returns `true` exactly when the
spec's rule `start_A < end_B && start_B < end_A` holds. -/
theorem overlapCheck_eq_specOverlap (req ex : Slot)
    (hreq : 0 < req.duration) (hex : 0 < ex.duration) :
    overlapCheck req ex = specOverlap req ex := by
  simp only [overlapCheck, specOverlap, Slot.endMinutes]
  rcases req with ⟨a, da⟩
  rcases ex with ⟨b, db⟩
  simp only at hreq hex ⊢
  by_cases h1 : a < b + db <;> by_cases h2 : b < a + da <;>
    simp [h1, h2] <;> omega

/-- Witness for C1 at a concrete pair of slots. -/
theorem overlapCheck_eq_specOverlap_witness :
    overlapCheck ⟨60, 30⟩ ⟨70, 45⟩ = specOverlap ⟨60, 30⟩ ⟨70, 45⟩ :=
  overlapCheck_eq_specOverlap ⟨60, 30⟩ ⟨70, 45⟩ (by decide) (by decide)

/-! ## Records -/

/-- A `Patient` row, with the fields the modelled operations read. -/
structure Patient where
  id : String
  clinicId : String
  ownerId : String
  name : String
  species : String
  breed : String
  isActive : Bool
  medicalRecordCount : Nat
  invoiceCount : Nat
  createdAt : Int
deriving DecidableEq, Repr

/-- An owner (`Owner` relation target), with the fields the search filters
read. -/
structure Owner where
  id : String
  name : String
deriving DecidableEq, Repr

/-- A `User` row, with the fields the veterinarian validation reads;
`clinicAccessClinicIds` are the clinics of the user's `clinicAccesses`. -/
structure User where
  id : String
  role : UserRole
  isActive : Bool
  clinicAccessClinicIds : List String
deriving DecidableEq, Repr

/-- An `Appointment` row. `timeHours`/`timeMinutes` are the two numeric
components of the stored `'HH:MM'` `appointmentTime`. -/
structure Appointment where
  id : String
  clinicId : String
  patientId : String
  veterinarianId : Option String
  appointmentDate : Int
  timeHours : Nat
  timeMinutes : Nat
  duration : Nat
  status : AppointmentStatus
  type : String
  reason : Option String
  notes : Option String
deriving DecidableEq, Repr

/-- The requested and stored time interval of an appointment. -/
def Appointment.slot (a : Appointment) : Slot :=
  ⟨toMinutes a.timeHours a.timeMinutes, a.duration⟩

/-- JavaScript `x || d` on an optional number: `0` is falsy, so both a
missing and a zero value yield the default. -/
def jsNumOr (x : Option Nat) (d : Nat) : Nat :=
  match x with
  | none => d
  | some v => if v = 0 then d else v

/-! ## `checkScheduleConflict` -/

/-- The Prisma `where` of `checkScheduleConflict`: same veterinarian, same
`appointmentDate`, status not in `[CANCELLED, NO_SHOW]`, and not the
excluded appointment id. -/
def conflictCandidate (veterinarianId : String) (appointmentDate : Int)
    (excludeAppointmentId : Option String) (a : Appointment) : Bool :=
  decide (a.veterinarianId = some veterinarianId) &&
  decide (a.appointmentDate = appointmentDate) &&
  !(decide (a.status = AppointmentStatus.CANCELLED) ||
    decide (a.status = AppointmentStatus.NO_SHOW)) &&
  (match excludeAppointmentId with
   | some ex => decide (a.id ≠ ex)
   | none => true)

/-- Function `checkScheduleConflict`: parse the requested time, query the
veterinarian's other appointments on the same date (ignoring cancelled and
no-show ones), and report whether any stored interval overlaps the
requested one under `overlapCheck`. -/
def checkScheduleConflict (appointments : List Appointment)
    (veterinarianId : String) (appointmentDate : Int)
    (timeHours timeMinutes duration : Nat)
    (excludeAppointmentId : Option String) : Bool :=
  let req : Slot := ⟨toMinutes timeHours timeMinutes, duration⟩
  let existing := appointments.filter
    (conflictCandidate veterinarianId appointmentDate excludeAppointmentId)
  existing.any (fun a => overlapCheck req a.slot)

/-! ## `createAppointment` -/

/-- The argument record of `AppointmentService.createAppointment`. -/
structure CreateAppointmentData where
  clinicId : String
  patientId : String
  veterinarianId : Option String
  appointmentDate : Int
  timeHours : Nat
  timeMinutes : Nat
  duration : Option Nat
  type : String
  reason : Option String
  notes : Option String
deriving DecidableEq, Repr

/-- The appointment row `createAppointment` inserts: the input data spread
into the row, `duration` defaulted with `data.duration || 30`, and status
forced to `SCHEDULED`. `freshId` stands for the database-generated id. -/
def newAppointment (freshId : String) (d : CreateAppointmentData) : Appointment :=
  { id := freshId
    clinicId := d.clinicId
    patientId := d.patientId
    veterinarianId := d.veterinarianId
    appointmentDate := d.appointmentDate
    timeHours := d.timeHours
    timeMinutes := d.timeMinutes
    duration := jsNumOr d.duration 30
    status := AppointmentStatus.SCHEDULED
    type := d.type
    reason := d.reason
    notes := d.notes }

/-- The state an `AppointmentService` call touches: the `patient`, `user`
and `appointment` tables. -/
structure AppState where
  patients : List Patient
  users : List User
  appointments : List Appointment
deriving DecidableEq, Repr

/-- The patient lookup of `createAppointment`:
`findFirst { id, clinicId, isActive: true }`. -/
def findActivePatient (patients : List Patient) (patientId clinicId : String) :
    Option Patient :=
  patients.find? (fun p =>
    decide (p.id = patientId) && decide (p.clinicId = clinicId) && p.isActive)

/-- The veterinarian lookup of `createAppointment`:
`findFirst { id, role in [VETERINARIAN, ADMIN], isActive, clinicAccesses some clinicId }`. -/
def findClinicVeterinarian (users : List User) (veterinarianId clinicId : String) :
    Option User :=
  users.find? (fun u =>
    decide (u.id = veterinarianId) &&
    (decide (u.role = UserRole.VETERINARIAN) || decide (u.role = UserRole.ADMIN)) &&
    u.isActive &&
    decide (clinicId ∈ u.clinicAccessClinicIds))

/-- Method `AppointmentService.createAppointment`: validate the patient, validate
the veterinarian when one is given, run the conflict check when a
veterinarian is given (with `data.duration || 30`), then insert the new row
with status `SCHEDULED`. No socket event is emitted on any path. -/
def createAppointment (st : AppState) (freshId : String)
    (d : CreateAppointmentData) :
    Except AppError Appointment × AppState × List SocketEvent :=
  match findActivePatient st.patients d.patientId d.clinicId with
  | none =>
      (Except.error ⟨404, "Patient not found or does not belong to this clinic"⟩, st, [])
  | some _ =>
      let vetOk : Bool :=
        match d.veterinarianId with
        | none => true
        | some vid => (findClinicVeterinarian st.users vid d.clinicId).isSome
      if !vetOk then
        (Except.error ⟨404, "Veterinarian not found or does not have access to this clinic"⟩,
         st, [])
      else
        let conflict : Bool :=
          match d.veterinarianId with
          | none => false
          | some vid =>
              checkScheduleConflict st.appointments vid d.appointmentDate
                d.timeHours d.timeMinutes (jsNumOr d.duration 30) none
        if conflict then
          (Except.error ⟨409, "Veterinarian already has an appointment at this time"⟩,
           st, [])
        else
          let appt := newAppointment freshId d
          (Except.ok appt,
           { st with appointments := st.appointments ++ [appt] }, [])

/-- JavaScript `x || d` with a positive default is positive (on `Nat` the zero value is
replaced by the default). -/
theorem jsNumOr_pos (x : Option Nat) (d : Nat) (hd : 0 < d) : 0 < jsNumOr x d := by
  cases x with
  | none => simpa [jsNumOr]
  | some v =>
      by_cases hv : v = 0 <;> simp [jsNumOr, hv] <;> omega

/-- Function `checkScheduleConflict` (with no excluded appointment) reports a
conflict exactly when some stored appointment of the veterinarian on the
same date, neither cancelled nor no-show, overlaps the requested interval
under the spec's rule — provided all durations are positive. -/
theorem checkScheduleConflict_iff_specOverlap (appts : List Appointment)
    (vid : String) (date : Int) (th tm dur : Nat)
    (hdur : 0 < dur) (hall : ∀ a ∈ appts, 0 < a.duration) :
    checkScheduleConflict appts vid date th tm dur none = true ↔
      ∃ a, a ∈ appts ∧ a.veterinarianId = some vid ∧
        a.appointmentDate = date ∧
        a.status ≠ AppointmentStatus.CANCELLED ∧
        a.status ≠ AppointmentStatus.NO_SHOW ∧
        specOverlap ⟨toMinutes th tm, dur⟩ a.slot = true := by
  simp only [checkScheduleConflict, List.any_eq_true, List.mem_filter]
  constructor
  · rintro ⟨a, ⟨ha, hc⟩, hov⟩
    rw [overlapCheck_eq_specOverlap _ _ hdur (hall a ha)] at hov
    simp only [conflictCandidate, Bool.and_eq_true, Bool.not_eq_true',
      Bool.or_eq_false_iff, decide_eq_true_eq, decide_eq_false_iff_not] at hc
    exact ⟨a, ha, hc.1.1.1, hc.1.1.2, hc.1.2.1, hc.1.2.2, hov⟩
  · rintro ⟨a, ha, h1, h2, h3, h4, hov⟩
    refine ⟨a, ⟨ha, ?_⟩, ?_⟩
    · simp [conflictCandidate, h1, h2, h3, h4]
    · rw [overlapCheck_eq_specOverlap _ _ hdur (hall a ha)]
      exact hov

/-- C2: With a veterinarian given and both the patient and the veterinarian
validations passing, `createAppointment` fails with
409 `Veterinarian already has an appointment at this time` if and only if
some existing appointment of that veterinarian on the same date, neither
cancelled nor no-show, overlaps the requested interval (with the requested
duration defaulted by `data.duration || 30`); and on that failure the state
is unchanged, so no appointment row is created. -/
theorem createAppointment_conflict_409 (st : AppState) (freshId : String)
    (d : CreateAppointmentData) (vid : String) (p : Patient) (u : User)
    (hvid : d.veterinarianId = some vid)
    (hp : findActivePatient st.patients d.patientId d.clinicId = some p)
    (hu : findClinicVeterinarian st.users vid d.clinicId = some u)
    (hall : ∀ a ∈ st.appointments, 0 < a.duration) :
    ((createAppointment st freshId d).1 =
        Except.error ⟨409, "Veterinarian already has an appointment at this time"⟩ ↔
      ∃ a, a ∈ st.appointments ∧ a.veterinarianId = some vid ∧
        a.appointmentDate = d.appointmentDate ∧
        a.status ≠ AppointmentStatus.CANCELLED ∧
        a.status ≠ AppointmentStatus.NO_SHOW ∧
        specOverlap ⟨toMinutes d.timeHours d.timeMinutes, jsNumOr d.duration 30⟩
          a.slot = true) ∧
    ((createAppointment st freshId d).1 =
        Except.error ⟨409, "Veterinarian already has an appointment at this time"⟩ →
      (createAppointment st freshId d).2.1 = st) := by
  have hdur : 0 < jsNumOr d.duration 30 := jsNumOr_pos _ _ (by norm_num)
  have hiff := checkScheduleConflict_iff_specOverlap st.appointments vid
    d.appointmentDate d.timeHours d.timeMinutes (jsNumOr d.duration 30) hdur hall
  by_cases hc : checkScheduleConflict st.appointments vid d.appointmentDate
      d.timeHours d.timeMinutes (jsNumOr d.duration 30) none = true
  · have hrun : createAppointment st freshId d =
        (Except.error ⟨409, "Veterinarian already has an appointment at this time"⟩,
         st, []) := by
      simp [createAppointment, hp, hvid, hu, hc]
    rw [hrun]
    exact ⟨by simpa using hiff.mp hc, fun _ => rfl⟩
  · have hrun : createAppointment st freshId d =
        (Except.ok (newAppointment freshId d),
         { st with appointments := st.appointments ++ [newAppointment freshId d] },
         []) := by
      simp [createAppointment, hp, hvid, hu, hc]
    rw [hrun]
    constructor
    · simp only [false_iff, iff_iff_implies_and_implies]
      refine ⟨fun h => absurd h (by simp), fun h => ?_⟩
      exact absurd (hiff.mpr h) hc
    · intro h
      exact absurd h (by simp)

/-- C9: Without a veterinarian, `createAppointment` skips the conflict check
entirely: whenever the patient validation passes, the appointment is
created with status `SCHEDULED` and duration `data.duration || 30`, and the
409 conflict error cannot be raised on this path. -/
theorem createAppointment_no_vet_skips_conflict (st : AppState) (freshId : String)
    (d : CreateAppointmentData) (p : Patient)
    (hvid : d.veterinarianId = none)
    (hp : findActivePatient st.patients d.patientId d.clinicId = some p) :
    createAppointment st freshId d =
      (Except.ok (newAppointment freshId d),
       { st with appointments := st.appointments ++ [newAppointment freshId d] },
       []) ∧
    (newAppointment freshId d).status = AppointmentStatus.SCHEDULED ∧
    (newAppointment freshId d).duration = jsNumOr d.duration 30 := by
  refine ⟨?_, rfl, rfl⟩
  simp [createAppointment, hp, hvid]

/-! ### Concrete sample data for the appointment theorems -/

/-- A sample active patient of clinic `c1`. -/
def pat1 : Patient := ⟨"p1", "c1", "o1", "Bobby", "dog", "poodle", true, 0, 0, 0⟩

/-- A sample active veterinarian with access to clinic `c1`. -/
def vet1 : User := ⟨"v1", UserRole.VETERINARIAN, true, ["c1"]⟩

/-- A sample stored appointment of `v1` on day 0 at 09:00 for 30 minutes. -/
def appt1 : Appointment :=
  ⟨"a1", "c1", "p1", some "v1", 0, 9, 0, 30, AppointmentStatus.SCHEDULED,
   "checkup", none, none⟩

/-- A sample appointment-service state. -/
def apptState1 : AppState := ⟨[pat1], [vet1], [appt1]⟩

/-- A request for `v1` on day 0 at 09:15 (overlapping `appt1`). -/
def apptReq1 : CreateAppointmentData :=
  ⟨"c1", "p1", some "v1", 0, 9, 15, none, "checkup", none, none⟩

/-- A request with no veterinarian on day 0 at 09:15 (overlapping `appt1`). -/
def apptReq2 : CreateAppointmentData :=
  ⟨"c1", "p1", none, 0, 9, 15, none, "checkup", none, none⟩

/-- Witness for C2 at a concrete state and request. -/
theorem createAppointment_conflict_409_witness :
    ((createAppointment apptState1 "a2" apptReq1).1 =
        Except.error ⟨409, "Veterinarian already has an appointment at this time"⟩ ↔
      ∃ a, a ∈ apptState1.appointments ∧ a.veterinarianId = some "v1" ∧
        a.appointmentDate = apptReq1.appointmentDate ∧
        a.status ≠ AppointmentStatus.CANCELLED ∧
        a.status ≠ AppointmentStatus.NO_SHOW ∧
        specOverlap ⟨toMinutes apptReq1.timeHours apptReq1.timeMinutes,
          jsNumOr apptReq1.duration 30⟩ a.slot = true) ∧
    ((createAppointment apptState1 "a2" apptReq1).1 =
        Except.error ⟨409, "Veterinarian already has an appointment at this time"⟩ →
      (createAppointment apptState1 "a2" apptReq1).2.1 = apptState1) :=
  createAppointment_conflict_409 apptState1 "a2" apptReq1 "v1" pat1 vet1
    rfl (by decide) (by decide) (by decide)

/-- Witness for C9 at a concrete state whose stored appointment overlaps the
request. -/
theorem createAppointment_no_vet_skips_conflict_witness :
    createAppointment apptState1 "a2" apptReq2 =
      (Except.ok (newAppointment "a2" apptReq2),
       { apptState1 with
          appointments := apptState1.appointments ++ [newAppointment "a2" apptReq2] },
       []) ∧
    (newAppointment "a2" apptReq2).status = AppointmentStatus.SCHEDULED ∧
    (newAppointment "a2" apptReq2).duration = jsNumOr apptReq2.duration 30 :=
  createAppointment_no_vet_skips_conflict apptState1 "a2" apptReq2 pat1
    rfl (by decide)

/-! ## Invoice service -/

/-- JavaScript `x || d` on an optional rational: `0` is falsy. -/
def jsRatOr (x : Option Rat) (d : Rat) : Rat :=
  match x with
  | none => d
  | some v => if v = 0 then d else v

/-- With default `0`, the JavaScript `x || 0` default coincides with
`Option.getD 0` (the only falsy number it rewrites is `0` itself). -/
theorem jsRatOr_zero (x : Option Rat) : jsRatOr x 0 = x.getD 0 := by
  cases x with
  | none => rfl
  | some v =>
      by_cases hv : v = 0 <;> simp [jsRatOr, hv]

/-- An `InvoiceItem` row as built by `createInvoice`. -/
structure InvoiceItem where
  productId : Option String
  description : String
  quantity : Rat
  unitPrice : Rat
  discountPercent : Rat
  totalPrice : Rat
deriving DecidableEq, Repr

/-- An `Invoice` row with its nested items. `updatedAt` is a timestamp
index. -/
structure Invoice where
  id : String
  clinicId : String
  patientId : String
  ownerId : String
  invoiceNumber : String
  issueDate : Int
  dueDate : Option Int
  subtotal : Rat
  taxAmount : Rat
  discountAmount : Rat
  totalAmount : Rat
  status : InvoiceStatus
  items : List InvoiceItem
  notes : Option String
  updatedAt : Int
deriving DecidableEq, Repr

/-- A `Payment` row. -/
structure Payment where
  id : String
  invoiceId : String
  amount : Rat
  paymentMethod : PaymentMethod
  transactionId : Option String
  status : PaymentStatus
  paymentDate : Int
  notes : Option String
deriving DecidableEq, Repr

/-- The state an `InvoiceService` call touches: the `patient`, `invoice`
and `payment` tables. -/
structure BillingState where
  patients : List Patient
  invoices : List Invoice
  payments : List Payment
deriving DecidableEq, Repr

/-- One item of `CreateInvoiceData.items`. -/
structure CreateInvoiceItemData where
  productId : Option String
  description : String
  quantity : Rat
  unitPrice : Rat
  discountPercent : Option Rat
deriving DecidableEq, Repr

/-- The argument record of `InvoiceService.createInvoice`. -/
structure CreateInvoiceData where
  patientId : String
  clinicId : String
  ownerId : String
  issueDate : Int
  dueDate : Option Int
  items : List CreateInvoiceItemData
  notes : Option String
  taxAmount : Option Rat
  discountAmount : Option Rat
deriving DecidableEq, Repr

/-- The argument record of `InvoiceService.createPayment`. -/
structure CreatePaymentData where
  invoiceId : String
  amount : Rat
  paymentMethod : PaymentMethod
  transactionId : Option String
  notes : Option String
deriving DecidableEq, Repr

/-- The argument record of `InvoiceService.updateInvoice`. -/
structure UpdateInvoiceData where
  dueDate : Option Int
  status : Option InvoiceStatus
  notes : Option String
  taxAmount : Option Rat
  discountAmount : Option Rat
deriving DecidableEq, Repr

/-- The per-item computation of `createInvoice`:
`totalPrice = quantity * unitPrice`,
`discountAmount = totalPrice * (discountPercent || 0) / 100`,
`finalPrice = totalPrice - discountAmount`, stored as the item's
`totalPrice` with the defaulted `discountPercent`. -/
def invoiceItemOf (it : CreateInvoiceItemData) : InvoiceItem :=
  let totalPrice := it.quantity * it.unitPrice
  let discountAmount := totalPrice * jsRatOr it.discountPercent 0 / 100
  let finalPrice := totalPrice - discountAmount
  { productId := it.productId
    description := it.description
    quantity := it.quantity
    unitPrice := it.unitPrice
    discountPercent := jsRatOr it.discountPercent 0
    totalPrice := finalPrice }

/-- The patient lookup of `createInvoice`:
`findFirst { id, clinicId, owner: { id: ownerId } }`. -/
def findOwnedPatient (patients : List Patient)
    (patientId clinicId ownerId : String) : Option Patient :=
  patients.find? (fun p =>
    decide (p.id = patientId) && decide (p.clinicId = clinicId) &&
    decide (p.ownerId = ownerId))

/-- The invoice row `createInvoice` inserts. `freshId` stands for the
database-generated id and `freshInvoiceNumber` for the random
`generateInvoiceNumber` result; `now` is the creation timestamp. -/
def newInvoice (freshId freshInvoiceNumber : String) (now : Int)
    (d : CreateInvoiceData) : Invoice :=
  let items := d.items.map invoiceItemOf
  let subtotal := (items.map (fun it => it.totalPrice)).sum
  let taxAmount := jsRatOr d.taxAmount 0
  let discountAmount := jsRatOr d.discountAmount 0
  { id := freshId
    clinicId := d.clinicId
    patientId := d.patientId
    ownerId := d.ownerId
    invoiceNumber := freshInvoiceNumber
    issueDate := d.issueDate
    dueDate := d.dueDate
    subtotal := subtotal
    taxAmount := taxAmount
    discountAmount := discountAmount
    totalAmount := subtotal + taxAmount - discountAmount
    status := InvoiceStatus.DRAFT
    items := items
    notes := d.notes
    updatedAt := now }

/-- Method `InvoiceService.createInvoice`: verify the patient belongs to the
clinic and owner, compute the item totals, the subtotal and the total,
insert the invoice with status `DRAFT`, and emit `invoice-created` to the
clinic's room. -/
def createInvoice (st : BillingState) (freshId freshInvoiceNumber : String)
    (now : Int) (d : CreateInvoiceData) :
    Except AppError Invoice × BillingState × List SocketEvent :=
  match findOwnedPatient st.patients d.patientId d.clinicId d.ownerId with
  | none => (Except.error ⟨404, "Patient not found or access denied"⟩, st, [])
  | some _ =>
      let inv := newInvoice freshId freshInvoiceNumber now d
      (Except.ok inv,
       { st with invoices := st.invoices ++ [inv] },
       [⟨"clinic-" ++ d.clinicId, "invoice-created"⟩])

/-- The paid-amount reduction of `createPayment`: sum the amounts of the
invoice's payments whose status is `SUCCESS`. -/
def successPaidAmount (payments : List Payment) : Rat :=
  payments.foldl
    (fun sum p => sum + (if p.status = PaymentStatus.SUCCESS then p.amount else 0)) 0

/-- The payments of one invoice (the `include: { payments: true }` of the
invoice lookup). -/
def paymentsOf (payments : List Payment) (invoiceId : String) : List Payment :=
  payments.filter (fun p => decide (p.invoiceId = invoiceId))

/-- The invoice-status update of `createPayment`
(`prisma.invoice.update({ where: { id }, data: { status } })`). -/
def setInvoiceStatus (invoices : List Invoice) (id : String)
    (newStatus : InvoiceStatus) : List Invoice :=
  invoices.map (fun i => if i.id = id then { i with status := newStatus } else i)

/-- Method `InvoiceService.createPayment`: look the invoice up with its payments,
reject when the amount exceeds `totalAmount` minus the successful payments,
otherwise insert a `SUCCESS` payment, move the invoice to `PAID` when the
new paid amount reaches the total and to `PARTIAL` when it is positive but
short of it, and emit `payment-received` to the clinic's room. -/
def createPayment (st : BillingState) (freshId : String) (now : Int)
    (d : CreatePaymentData) :
    Except AppError Payment × BillingState × List SocketEvent :=
  match st.invoices.find? (fun i => decide (i.id = d.invoiceId)) with
  | none => (Except.error ⟨404, "Invoice not found"⟩, st, [])
  | some invoice =>
      let paidAmount := successPaidAmount (paymentsOf st.payments d.invoiceId)
      let remainingAmount := invoice.totalAmount - paidAmount
      if d.amount > remainingAmount then
        (Except.error ⟨400, "Payment amount exceeds remaining balance"⟩, st, [])
      else
        let payment : Payment :=
          { id := freshId
            invoiceId := d.invoiceId
            amount := d.amount
            paymentMethod := d.paymentMethod
            transactionId := d.transactionId
            status := PaymentStatus.SUCCESS
            paymentDate := now
            notes := d.notes }
        let newPaidAmount := paidAmount + d.amount
        let newStatus :=
          if newPaidAmount ≥ invoice.totalAmount then InvoiceStatus.PAID
          else if newPaidAmount > 0 then InvoiceStatus.PARTIAL
          else invoice.status
        let invoices' :=
          if newStatus ≠ invoice.status then
            setInvoiceStatus st.invoices d.invoiceId newStatus
          else st.invoices
        (Except.ok payment,
         { st with payments := st.payments ++ [payment], invoices := invoices' },
         [⟨"clinic-" ++ invoice.clinicId, "payment-received"⟩])

/-- The invoice lookup of `updateInvoice`, `deleteInvoice` and
`getInvoiceById`: `findFirst { id }`, with `clinicId` added to the `where`
only when supplied. -/
def findInvoice (invoices : List Invoice) (id : String)
    (clinicId : Option String) : Option Invoice :=
  invoices.find? (fun i =>
    decide (i.id = id) &&
    (match clinicId with
     | some c => decide (i.clinicId = c)
     | none => true))

/-- The `...data` spread applied by `updateInvoice` to an invoice row
(absent fields leave the column untouched), plus the `updatedAt` refresh. -/
def applyInvoiceUpdate (d : UpdateInvoiceData) (now : Int) (i : Invoice) : Invoice :=
  { i with
      dueDate := match d.dueDate with | some v => some v | none => i.dueDate
      status := d.status.getD i.status
      notes := match d.notes with | some v => some v | none => i.notes
      taxAmount := d.taxAmount.getD i.taxAmount
      discountAmount := d.discountAmount.getD i.discountAmount
      updatedAt := now }

/-- Method `InvoiceService.updateInvoice`: find the invoice (clinic-scoped when a
clinic id is supplied), refuse 404 when missing and 400 when it is already
`PAID`, otherwise apply the update; `invoice-updated` is emitted only when
a clinic id was supplied. -/
def updateInvoice (st : BillingState) (id : String) (d : UpdateInvoiceData)
    (clinicId : Option String) (now : Int) :
    Except AppError Invoice × BillingState × List SocketEvent :=
  match findInvoice st.invoices id clinicId with
  | none => (Except.error ⟨404, "Invoice not found"⟩, st, [])
  | some existingInvoice =>
      if existingInvoice.status = InvoiceStatus.PAID then
        (Except.error ⟨400, "Cannot modify a paid invoice"⟩, st, [])
      else
        let updated := applyInvoiceUpdate d now existingInvoice
        let invoices' :=
          st.invoices.map (fun i => if i.id = id then applyInvoiceUpdate d now i else i)
        (Except.ok updated,
         { st with invoices := invoices' },
         match clinicId with
         | some c => [⟨"clinic-" ++ c, "invoice-updated"⟩]
         | none => [])

/-- Method `InvoiceService.deleteInvoice`: find the invoice (clinic-scoped when a
clinic id is supplied); with at least one payment it soft deletes by setting
the status to `CANCELLED` (refreshing `updatedAt`), otherwise it removes the
row. -/
def deleteInvoice (st : BillingState) (id : String) (clinicId : Option String)
    (now : Int) : Except AppError Unit × BillingState × List SocketEvent :=
  match findInvoice st.invoices id clinicId with
  | none => (Except.error ⟨404, "Invoice not found"⟩, st, [])
  | some invoice =>
      if (paymentsOf st.payments invoice.id).length > 0 then
        (Except.ok (),
         { st with invoices := st.invoices.map (fun i =>
            if i.id = id then { i with status := InvoiceStatus.CANCELLED, updatedAt := now }
            else i) },
         [])
      else
        (Except.ok (),
         { st with invoices := st.invoices.filter (fun i => decide (i.id ≠ id)) },
         [])

/-- Looking an invoice up by id after `setInvoiceStatus` returns the same
row as before with only the status replaced. -/
theorem find?_setInvoiceStatus (invs : List Invoice) (id : String)
    (ns : InvoiceStatus) :
    (setInvoiceStatus invs id ns).find? (fun i => decide (i.id = id)) =
      (invs.find? (fun i => decide (i.id = id))).map
        (fun i => { i with status := ns }) := by
  induction invs with
  | nil => rfl
  | cons hd tl ih =>
      simp only [setInvoiceStatus, List.map_cons] at ih ⊢
      by_cases h : hd.id = id
      · simp [List.find?_cons, h]
      · simp [List.find?_cons, h, ih]

/-- C3: When `createPayment` succeeds with amount `a` against an invoice
whose prior successful payments sum to `paid`, the stored invoice ends in
status `PAID` when `paid + a` reaches `totalAmount`, `PARTIAL` when
`paid + a` is positive but below it, and keeps its previous status
otherwise. -/
theorem createPayment_status_transition (st : BillingState) (freshId : String)
    (now : Int) (d : CreatePaymentData) (inv : Invoice) (paid : Rat)
    (hinv : st.invoices.find? (fun i => decide (i.id = d.invoiceId)) = some inv)
    (hpaid : paid = successPaidAmount (paymentsOf st.payments d.invoiceId))
    (hok : d.amount ≤ inv.totalAmount - paid) :
    ∃ p : Payment,
      (createPayment st freshId now d).1 = Except.ok p ∧
      (createPayment st freshId now d).2.1.invoices.find?
          (fun i => decide (i.id = d.invoiceId)) =
        some { inv with status :=
          if paid + d.amount ≥ inv.totalAmount then InvoiceStatus.PAID
          else if paid + d.amount > 0 then InvoiceStatus.PARTIAL
          else inv.status } := by
  subst hpaid
  have hgt : ¬ d.amount >
      inv.totalAmount - successPaidAmount (paymentsOf st.payments d.invoiceId) :=
    not_lt.mpr hok
  refine ⟨⟨freshId, d.invoiceId, d.amount, d.paymentMethod, d.transactionId,
           PaymentStatus.SUCCESS, now, d.notes⟩, ?_, ?_⟩
  · simp [createPayment, hinv, hgt]
  · by_cases hchg :
        (if (successPaidAmount (paymentsOf st.payments d.invoiceId) + d.amount ≥
            inv.totalAmount) then InvoiceStatus.PAID
         else if (successPaidAmount (paymentsOf st.payments d.invoiceId) + d.amount > 0)
            then InvoiceStatus.PARTIAL
         else inv.status) = inv.status
    · simp [createPayment, hinv, hgt, hchg, find?_setInvoiceStatus]
    · simp [createPayment, hinv, hgt, hchg, find?_setInvoiceStatus]

/-- C4: `createPayment` rejects with 400
`Payment amount exceeds remaining balance` whenever the amount strictly
exceeds `totalAmount` minus the successful payments, and then it leaves the
whole state unchanged and emits nothing. -/
theorem createPayment_rejects_excess (st : BillingState) (freshId : String)
    (now : Int) (d : CreatePaymentData) (inv : Invoice)
    (hinv : st.invoices.find? (fun i => decide (i.id = d.invoiceId)) = some inv)
    (hgt : d.amount >
      inv.totalAmount - successPaidAmount (paymentsOf st.payments d.invoiceId)) :
    createPayment st freshId now d =
      (Except.error ⟨400, "Payment amount exceeds remaining balance"⟩, st, []) := by
  simp [createPayment, hinv, hgt]

/-- C8: `updateInvoice` on an invoice stored as `PAID` fails with 400
`Cannot modify a paid invoice` and leaves the state unchanged. -/
theorem updateInvoice_paid_immutable (st : BillingState) (id : String)
    (d : UpdateInvoiceData) (clinicId : Option String) (now : Int) (inv : Invoice)
    (hinv : findInvoice st.invoices id clinicId = some inv)
    (hpaid : inv.status = InvoiceStatus.PAID) :
    updateInvoice st id d clinicId now =
      (Except.error ⟨400, "Cannot modify a paid invoice"⟩, st, []) := by
  simp [updateInvoice, hinv, hpaid]

/-- C10: A successful `createInvoice` produces an invoice in status `DRAFT`
whose item `totalPrice`s are `quantity * unitPrice * (1 - discountPercent/100)`
(discount defaulting to 0), whose `subtotal` is the sum of the item totals,
and whose `totalAmount` is `subtotal + taxAmount - discountAmount` with both
defaulting to 0. -/
theorem createInvoice_totals (st : BillingState) (freshId freshInvoiceNumber : String)
    (now : Int) (d : CreateInvoiceData) (p : Patient)
    (hp : findOwnedPatient st.patients d.patientId d.clinicId d.ownerId = some p) :
    ∃ inv : Invoice,
      (createInvoice st freshId freshInvoiceNumber now d).1 = Except.ok inv ∧
      inv.status = InvoiceStatus.DRAFT ∧
      inv.items = d.items.map invoiceItemOf ∧
      (∀ it ∈ d.items, (invoiceItemOf it).totalPrice =
        it.quantity * it.unitPrice * (1 - it.discountPercent.getD 0 / 100)) ∧
      inv.subtotal = (inv.items.map (fun i => i.totalPrice)).sum ∧
      inv.totalAmount =
        inv.subtotal + d.taxAmount.getD 0 - d.discountAmount.getD 0 := by
  refine ⟨newInvoice freshId freshInvoiceNumber now d, ?_, rfl, rfl, ?_, rfl, ?_⟩
  · simp [createInvoice, hp]
  · intro it _
    simp only [invoiceItemOf, jsRatOr_zero]
    ring
  · simp [newInvoice, jsRatOr_zero]

/-! ### Concrete sample data for the invoice theorems -/

/-- A sample invoice of clinic `c1` with total 100, already `SENT`. -/
def inv1 : Invoice :=
  ⟨"i1", "c1", "p1", "o1", "INV-0001", 0, none, 100, 0, 0, 100,
   InvoiceStatus.SENT, [], none, 0⟩

/-- A successful payment of 40 against `inv1`. -/
def pay1 : Payment :=
  ⟨"y1", "i1", 40, PaymentMethod.CASH, none, PaymentStatus.SUCCESS, 0, none⟩

/-- A sample billing state: one patient, one invoice, one payment. -/
def billState1 : BillingState := ⟨[pat1], [inv1], [pay1]⟩

/-- A payment request for the remaining 60 of `inv1`. -/
def payReq1 : CreatePaymentData := ⟨"i1", 60, PaymentMethod.CASH, none, none⟩

/-- A payment request exceeding the remaining 60 of `inv1`. -/
def payReq2 : CreatePaymentData := ⟨"i1", 70, PaymentMethod.CASH, none, none⟩

/-- Witness for C3: paying the remaining 60 moves `inv1` to `PAID`. -/
theorem createPayment_status_transition_witness :
    ∃ p : Payment,
      (createPayment billState1 "y2" 1 payReq1).1 = Except.ok p ∧
      (createPayment billState1 "y2" 1 payReq1).2.1.invoices.find?
          (fun i => decide (i.id = payReq1.invoiceId)) =
        some { inv1 with status :=
          if (40 : Rat) + payReq1.amount ≥ inv1.totalAmount then InvoiceStatus.PAID
          else if (40 : Rat) + payReq1.amount > 0 then InvoiceStatus.PARTIAL
          else inv1.status } :=
  createPayment_status_transition billState1 "y2" 1 payReq1 inv1 40
    (by decide)
    (by simp [successPaidAmount, paymentsOf, billState1, pay1, payReq1])
    (by norm_num [payReq1, inv1])

/-- Witness for C4: a 70 payment against the remaining 60 is rejected and
the state is unchanged. -/
theorem createPayment_rejects_excess_witness :
    createPayment billState1 "y2" 1 payReq2 =
      (Except.error ⟨400, "Payment amount exceeds remaining balance"⟩,
       billState1, []) :=
  createPayment_rejects_excess billState1 "y2" 1 payReq2 inv1 (by decide)
    (by norm_num [successPaidAmount, paymentsOf, billState1, pay1, payReq2, inv1])

/-- A sample invoice already `PAID`. -/
def inv2 : Invoice :=
  ⟨"i2", "c1", "p1", "o1", "INV-0002", 0, none, 100, 0, 0, 100,
   InvoiceStatus.PAID, [], none, 0⟩

/-- A billing state holding the paid invoice `inv2`. -/
def billState2 : BillingState := ⟨[pat1], [inv2], []⟩

/-- Witness for C8: updating the paid `inv2` fails with 400 and changes
nothing. -/
theorem updateInvoice_paid_immutable_witness :
    updateInvoice billState2 "i2" ⟨none, some InvoiceStatus.SENT, none, none, none⟩
        (some "c1") 5 =
      (Except.error ⟨400, "Cannot modify a paid invoice"⟩, billState2, []) :=
  updateInvoice_paid_immutable billState2 "i2"
    ⟨none, some InvoiceStatus.SENT, none, none, none⟩ (some "c1") 5 inv2
    (by decide) (by decide)

/-- A sample invoice-creation request: two items, one discounted. -/
def invReq1 : CreateInvoiceData :=
  ⟨"p1", "c1", "o1", 0, none,
   [⟨none, "consultation", 2, 50, some 10⟩, ⟨some "prod1", "vaccine", 1, 30, none⟩],
   none, some 5, none⟩

/-- Witness for C10 at the concrete request `invReq1`. -/
theorem createInvoice_totals_witness :
    ∃ inv : Invoice,
      (createInvoice billState1 "i3" "INV-0003" 2 invReq1).1 = Except.ok inv ∧
      inv.status = InvoiceStatus.DRAFT ∧
      inv.items = invReq1.items.map invoiceItemOf ∧
      (∀ it ∈ invReq1.items, (invoiceItemOf it).totalPrice =
        it.quantity * it.unitPrice * (1 - it.discountPercent.getD 0 / 100)) ∧
      inv.subtotal = (inv.items.map (fun i => i.totalPrice)).sum ∧
      inv.totalAmount =
        inv.subtotal + invReq1.taxAmount.getD 0 - invReq1.discountAmount.getD 0 :=
  createInvoice_totals billState1 "i3" "INV-0003" 2 invReq1 pat1 (by decide)

/-! ## Clinic-scoped reads -/

/-- Prisma's `{ contains: s, mode: 'insensitive' }` on a string column. -/
def containsInsensitive (hay needle : String) : Bool :=
  decide ( List.IsInfix needle.toLower.data hay.toLower.data)

/-- An `if (field) where.col = field` conjunct of a `where` clause: absent
filters match everything. -/
def optMatch {α : Type} [DecidableEq α] (q : Option α) (v : α) : Bool :=
  match q with
  | none => true
  | some x => decide (v = x)

/-- The same conjunct against a nullable column: a `NULL` column never
equals the filter value. -/
def optMatchCol (q : Option String) (v : Option String) : Bool :=
  match q with
  | none => true
  | some x => decide (v = some x)

/-- Filter `{ contains }` against a nullable column: `NULL` does not match. -/
def optContains (v : Option String) (s : String) : Bool :=
  match v with
  | some t => containsInsensitive t s
  | none => false

/-- The `where.OR` search block of `getAppointments`: `type`, `reason`,
`notes`, the related patient's name, and the patient's owner's name. -/
def apptSearchMatch (patients : List Patient) (owners : List Owner)
    (s : String) (a : Appointment) : Bool :=
  containsInsensitive a.type s ||
  optContains a.reason s ||
  optContains a.notes s ||
  (match patients.find? (fun p => decide (p.id = a.patientId)) with
   | some p => containsInsensitive p.name s
   | none => false) ||
  (match patients.find? (fun p => decide (p.id = a.patientId)) with
   | some p =>
      match owners.find? (fun o => decide (o.id = p.ownerId)) with
      | some o => containsInsensitive o.name s
      | none => false
   | none => false)

/-- The query record of `getAppointments` (defaults `page = 1`,
`limit = 20` already applied by the destructuring). -/
structure GetAppointmentsQuery where
  page : Nat
  limit : Nat
  clinicId : Option String
  patientId : Option String
  veterinarianId : Option String
  status : Option AppointmentStatus
  startDate : Option Int
  endDate : Option Int
  search : Option String
deriving Repr

/-- The `where` clause `getAppointments` builds, as a row predicate. -/
def apptWhere (patients : List Patient) (owners : List Owner)
    (q : GetAppointmentsQuery) (a : Appointment) : Bool :=
  optMatch q.clinicId a.clinicId &&
  optMatch q.patientId a.patientId &&
  optMatchCol q.veterinarianId a.veterinarianId &&
  optMatch q.status a.status &&
  (match q.startDate with | some sd => decide (a.appointmentDate ≥ sd) | none => true) &&
  (match q.endDate with | some ed => decide (a.appointmentDate ≤ ed) | none => true) &&
  (match q.search with
   | some s => apptSearchMatch patients owners s a
   | none => true)

/-- Ordering `orderBy: [{ appointmentDate: 'asc' }, { appointmentTime: 'asc' }]`. -/
def apptOrder (a b : Appointment) : Bool :=
  decide (a.appointmentDate < b.appointmentDate) ||
  (decide (a.appointmentDate = b.appointmentDate) &&
   decide (toMinutes a.timeHours a.timeMinutes ≤ toMinutes b.timeHours b.timeMinutes))

/-- Method `AppointmentService.getAppointments`: filter by the built `where`,
order, then paginate with `skip = (page-1)*limit` and `take = limit`. -/
def getAppointments (patients : List Patient) (owners : List Owner)
    (appointments : List Appointment) (q : GetAppointmentsQuery) :
    List Appointment :=
  let skip := (q.page - 1) * q.limit
  ((((appointments.filter (apptWhere patients owners q)).mergeSort
      apptOrder).drop skip).take q.limit)

/-- The query record of `getInvoices` (defaults `page = 1`, `limit = 20`
already applied). -/
structure GetInvoicesQuery where
  page : Nat
  limit : Nat
  clinicId : Option String
  patientId : Option String
  ownerId : Option String
  status : Option InvoiceStatus
  dateFrom : Option Int
  dateTo : Option Int
  search : Option String
deriving Repr

/-- The `where.OR` search block of `getInvoices`: invoice number, patient
name, owner name. -/
def invoiceSearchMatch (patients : List Patient) (owners : List Owner)
    (s : String) (i : Invoice) : Bool :=
  containsInsensitive i.invoiceNumber s ||
  (match patients.find? (fun p => decide (p.id = i.patientId)) with
   | some p => containsInsensitive p.name s
   | none => false) ||
  (match owners.find? (fun o => decide (o.id = i.ownerId)) with
   | some o => containsInsensitive o.name s
   | none => false)

/-- The `where` clause `getInvoices` builds, as a row predicate. -/
def invoiceWhere (patients : List Patient) (owners : List Owner)
    (q : GetInvoicesQuery) (i : Invoice) : Bool :=
  optMatch q.clinicId i.clinicId &&
  optMatch q.patientId i.patientId &&
  optMatch q.ownerId i.ownerId &&
  optMatch q.status i.status &&
  (match q.dateFrom with | some v => decide (i.issueDate ≥ v) | none => true) &&
  (match q.dateTo with | some v => decide (i.issueDate ≤ v) | none => true) &&
  (match q.search with
   | some s => invoiceSearchMatch patients owners s i
   | none => true)

/-- Ordering `orderBy: { issueDate: 'desc' }`. -/
def invoiceOrder (a b : Invoice) : Bool := decide (a.issueDate ≥ b.issueDate)

/-- Method `InvoiceService.getInvoices`: filter, order by issue date descending,
paginate. -/
def getInvoices (patients : List Patient) (owners : List Owner)
    (invoices : List Invoice) (q : GetInvoicesQuery) : List Invoice :=
  let skip := (q.page - 1) * q.limit
  ((((invoices.filter (invoiceWhere patients owners q)).mergeSort
      invoiceOrder).drop skip).take q.limit)

/-- Method `InvoiceService.getInvoiceById`: `findFirst { id }` with `clinicId`
added only when supplied; 404 when nothing matches. -/
def getInvoiceById (invoices : List Invoice) (id : String)
    (clinicId : Option String) : Except AppError Invoice :=
  match findInvoice invoices id clinicId with
  | none => Except.error ⟨404, "Invoice not found"⟩
  | some invoice => Except.ok invoice

/-- The query record of `getAllPatients` (defaults `page = 1`,
`limit = 10` already applied). -/
structure GetAllPatientsQuery where
  page : Nat
  limit : Nat
  search : Option String
  species : Option String
  breed : Option String
deriving Repr

/-- The `where.OR` search block of `getAllPatients`: name, species, breed. -/
def patientSearchMatch (s : String) (p : Patient) : Bool :=
  containsInsensitive p.name s ||
  containsInsensitive p.species s ||
  containsInsensitive p.breed s

/-- The `where` clause `getAllPatients` builds: the requesting user's
clinic (when the authenticated user carries one), `isActive: true`, then
the optional search, species and breed filters. -/
def patientWhere (userClinicId : Option String) (q : GetAllPatientsQuery)
    (p : Patient) : Bool :=
  (match userClinicId with | some c => decide (p.clinicId = c) | none => true) &&
  p.isActive &&
  (match q.search with | some s => patientSearchMatch s p | none => true) &&
  optMatch q.species p.species &&
  optMatch q.breed p.breed

/-- Ordering `orderBy: { createdAt: 'desc' }`. -/
def patientOrder (a b : Patient) : Bool := decide (a.createdAt ≥ b.createdAt)

/-- Method `PatientController.getAllPatients`: filter, order by creation date
descending, paginate. -/
def getAllPatients (patients : List Patient) (userClinicId : Option String)
    (q : GetAllPatientsQuery) : List Patient :=
  let skip := (q.page - 1) * q.limit
  ((((patients.filter (patientWhere userClinicId q)).mergeSort
      patientOrder).drop skip).take q.limit)

/-- Rows surviving sort-and-paginate come from the original list. -/
theorem mem_of_mem_sortPage {α : Type} (l : List α) (le : α → α → Bool)
    (skip n : Nat) (a : α)
    (h : a ∈ ((l.mergeSort le).drop skip).take n) : a ∈ l := by
  have h1 := List.mem_of_mem_take h
  have h2 := List.mem_of_mem_drop h1
  exact ((List.mergeSort_perm l le).mem_iff).mp h2

/-- C5: Every record returned by `getAppointments`, `getInvoices`,
`getInvoiceById` or `getAllPatients` carries the clinic id supplied by the
caller; records of a different clinic are never returned. -/
theorem reads_clinic_scoped :
    (∀ patients owners appointments q c a, q.clinicId = some c →
        a ∈ getAppointments patients owners appointments q → a.clinicId = c) ∧
    (∀ patients owners invoices q c i, q.clinicId = some c →
        i ∈ getInvoices patients owners invoices q → i.clinicId = c) ∧
    (∀ invoices id c i, getInvoiceById invoices id (some c) = Except.ok i →
        i.clinicId = c) ∧
    (∀ patients q c p, p ∈ getAllPatients patients (some c) q →
        p.clinicId = c) := by
  refine ⟨?_, ?_, ?_, ?_⟩
  · intro patients owners appointments q c a hc hmem
    simp only [getAppointments] at hmem
    have h2 := List.mem_filter.mp (mem_of_mem_sortPage _ _ _ _ _ hmem)
    have hw := h2.2
    simp only [apptWhere, hc, optMatch, Bool.and_eq_true, decide_eq_true_eq] at hw
    exact hw.1.1.1.1.1.1
  · intro patients owners invoices q c i hc hmem
    simp only [getInvoices] at hmem
    have h2 := List.mem_filter.mp (mem_of_mem_sortPage _ _ _ _ _ hmem)
    have hw := h2.2
    simp only [invoiceWhere, hc, optMatch, Bool.and_eq_true, decide_eq_true_eq] at hw
    exact hw.1.1.1.1.1.1
  · intro invoices id c i h
    simp only [getInvoiceById] at h
    cases hfind : findInvoice invoices id (some c) with
    | none => rw [hfind] at h; exact absurd h (by simp)
    | some j =>
        rw [hfind] at h
        have hj : j = i := by
          cases h
          rfl
        subst hj
        simp only [findInvoice] at hfind
        have hp := List.find?_some hfind
        simp only [Bool.and_eq_true, decide_eq_true_eq] at hp
        exact hp.2
  · intro patients q c p hmem
    simp only [getAllPatients] at hmem
    have h2 := List.mem_filter.mp (mem_of_mem_sortPage _ _ _ _ _ hmem)
    have hw := h2.2
    simp only [patientWhere, Bool.and_eq_true, decide_eq_true_eq] at hw
    exact hw.1.1.1.1

/-- A query for clinic `c1` with no further filters. -/
def apptQuery1 : GetAppointmentsQuery :=
  ⟨1, 20, some "c1", none, none, none, none, none, none⟩

/-- Witness for C5: the appointment returned for the clinic-`c1` query
carries clinic id `c1`. -/
theorem reads_clinic_scoped_witness : appt1.clinicId = "c1" :=
  reads_clinic_scoped.1 [pat1] [] [appt1] apptQuery1 "c1" appt1 rfl
    (by simp [getAppointments, apptQuery1, apptWhere, optMatch, optMatchCol,
          List.filter, appt1])

/-! ## Soft deletes -/

/-- Method `PatientController.deletePatient` (`DELETE /api/patients/:id`): look the
patient up by id and the requester's clinic, answer 404 when absent,
otherwise `update({ where: { id }, data: { isActive: false } })`. -/
def deletePatientCtrl (patients : List Patient) (id : String)
    (userClinicId : Option String) : Except AppError Unit × List Patient :=
  match patients.find? (fun p =>
      decide (p.id = id) &&
      (match userClinicId with
       | some c => decide (p.clinicId = c)
       | none => true)) with
  | none => (Except.error ⟨404, "Patient not found"⟩, patients)
  | some _ =>
      (Except.ok (),
       patients.map (fun p => if p.id = id then { p with isActive := false } else p))

/-- Looking a row up by key after a keyed conditional update returns the
previous row with the update applied, provided the update keeps the key. -/
theorem find?_map_update {α : Type} (l : List α) (key : α → String) (id : String)
    (f : α → α) (hf : ∀ a, key (f a) = key a) :
    (l.map (fun a => if key a = id then f a else a)).find?
        (fun a => decide (key a = id)) =
      (l.find? (fun a => decide (key a = id))).map f := by
  induction l with
  | nil => rfl
  | cons hd tl ih =>
      by_cases h : key hd = id
      · simp [List.find?_cons, h, hf]
      · simp [List.find?_cons, h, ih]

/-- Counterexample to C6: `deleteInvoice` on an invoice with a payment does
not set any `isActive` flag — it rewrites the `status` field to `CANCELLED`
(and refreshes `updatedAt`), so the record's other fields are not all
unchanged. Here the stored status flips from `SENT` to `CANCELLED`. -/
theorem deleteInvoice_rewrites_status :
    (deleteInvoice billState1 "i1" none 3).2.1.invoices =
      [{ inv1 with status := InvoiceStatus.CANCELLED, updatedAt := 3 }] ∧
    inv1.status = InvoiceStatus.SENT ∧
    InvoiceStatus.SENT ≠ InvoiceStatus.CANCELLED := by
  refine ⟨rfl, rfl, by decide⟩

/-- C6 (amended): `deletePatient` soft deletes any found patient by setting
`isActive := false` and leaving every other field unchanged; `deleteInvoice`
on an invoice with at least one payment soft deletes by setting
`status := CANCELLED` and refreshing `updatedAt`, leaving the row present
and every other field (it never touches an `isActive` flag) unchanged. -/
theorem softDelete_behavior :
    (∀ patients id userClinicId p,
        patients.find? (fun q =>
            decide (q.id = id) &&
            (match userClinicId with
             | some c => decide (q.clinicId = c)
             | none => true)) = some p →
        (deletePatientCtrl patients id userClinicId).1 = Except.ok () ∧
        (deletePatientCtrl patients id userClinicId).2.find?
            (fun q => decide (q.id = id)) =
          (patients.find? (fun q => decide (q.id = id))).map
            (fun q => { q with isActive := false })) ∧
    (∀ st id clinicId now inv,
        findInvoice st.invoices id clinicId = some inv →
        (paymentsOf st.payments inv.id).length > 0 →
        (deleteInvoice st id clinicId now).1 = Except.ok () ∧
        (deleteInvoice st id clinicId now).2.1.invoices.find?
            (fun q => decide (q.id = id)) =
          (st.invoices.find? (fun q => decide (q.id = id))).map
            (fun q => { q with status := InvoiceStatus.CANCELLED,
                               updatedAt := now })) := by
  constructor
  · intro patients id userClinicId p hfind
    refine ⟨by simp [deletePatientCtrl, hfind], ?_⟩
    simp only [deletePatientCtrl, hfind]
    exact find?_map_update patients (fun q => q.id) id
      (fun q => { q with isActive := false }) (fun a => rfl)
  · intro st id clinicId now inv hfind hlen
    refine ⟨by simp [deleteInvoice, hfind, hlen], ?_⟩
    simp only [deleteInvoice, hfind, hlen, if_true]
    exact find?_map_update st.invoices (fun q => q.id) id
      (fun q => { q with status := InvoiceStatus.CANCELLED, updatedAt := now })
      (fun a => rfl)

/-- Witness for the amended C6 at concrete states. -/
theorem softDelete_behavior_witness :
    ((deletePatientCtrl [pat1] "p1" (some "c1")).1 = Except.ok () ∧
     (deletePatientCtrl [pat1] "p1" (some "c1")).2.find?
        (fun q => decide (q.id = "p1")) =
       (([pat1] : List Patient).find? (fun q => decide (q.id = "p1"))).map
         (fun q => { q with isActive := false })) ∧
    ((deleteInvoice billState1 "i1" none 3).1 = Except.ok () ∧
     (deleteInvoice billState1 "i1" none 3).2.1.invoices.find?
        (fun q => decide (q.id = "i1")) =
       (billState1.invoices.find? (fun q => decide (q.id = "i1"))).map
         (fun q => { q with status := InvoiceStatus.CANCELLED, updatedAt := 3 })) :=
  ⟨softDelete_behavior.1 [pat1] "p1" (some "c1") pat1 (by decide),
   softDelete_behavior.2 billState1 "i1" none 3 inv1 (by decide) (by decide)⟩

/-! ## Socket emissions -/

/-- Counterexample to C7: a successful `createAppointment` emits no socket
event (the appointment service contains no `io.emit` call). -/
theorem createAppointment_emits_no_event :
    (createAppointment apptState1 "a3" apptReq2).1 =
      Except.ok (newAppointment "a3" apptReq2) ∧
    (createAppointment apptState1 "a3" apptReq2).2.2 = [] :=
  ⟨rfl, rfl⟩

/-- C7 (amended): every successful `createInvoice` emits `invoice-created`
to room `clinic-<clinicId>` and every successful `createPayment` emits
`payment-received` to the invoice's clinic room, but `createAppointment`
emits no socket event on any path. -/
theorem socket_emissions :
    (∀ st freshId freshInvoiceNumber now d inv,
        (createInvoice st freshId freshInvoiceNumber now d).1 = Except.ok inv →
        (createInvoice st freshId freshInvoiceNumber now d).2.2 =
          [⟨"clinic-" ++ d.clinicId, "invoice-created"⟩]) ∧
    (∀ st freshId now d invoice p,
        st.invoices.find? (fun i => decide (i.id = d.invoiceId)) = some invoice →
        (createPayment st freshId now d).1 = Except.ok p →
        (createPayment st freshId now d).2.2 =
          [⟨"clinic-" ++ invoice.clinicId, "payment-received"⟩]) ∧
    (∀ st freshId d, (createAppointment st freshId d).2.2 = []) := by
  refine ⟨?_, ?_, ?_⟩
  · intro st freshId freshInvoiceNumber now d inv hok
    cases hp : findOwnedPatient st.patients d.patientId d.clinicId d.ownerId with
    | none => simp [createInvoice, hp] at hok
    | some p => simp [createInvoice, hp]
  · intro st freshId now d invoice p hinv hok
    by_cases hgt : d.amount >
        invoice.totalAmount - successPaidAmount (paymentsOf st.payments d.invoiceId)
    · simp [createPayment, hinv, hgt] at hok
    · simp [createPayment, hinv, hgt]
  · intro st freshId d
    cases hp : findActivePatient st.patients d.patientId d.clinicId with
    | none => simp [createAppointment, hp]
    | some p =>
        cases hvid : d.veterinarianId with
        | none => simp [createAppointment, hp, hvid]
        | some vid =>
            by_cases hu : (findClinicVeterinarian st.users vid d.clinicId).isSome = true
            · by_cases hc : checkScheduleConflict st.appointments vid
                  d.appointmentDate d.timeHours d.timeMinutes
                  (jsNumOr d.duration 30) none = true
              · simp [createAppointment, hp, hvid, hu, hc]
              · simp [createAppointment, hp, hvid, hu, hc]
            · simp [createAppointment, hp, hvid, hu]

/-- Witness for the amended C7 at concrete calls. -/
theorem socket_emissions_witness :
    (createInvoice billState1 "i3" "INV-0003" 2 invReq1).2.2 =
      [⟨"clinic-" ++ invReq1.clinicId, "invoice-created"⟩] ∧
    (createPayment billState1 "y2" 1 payReq1).2.2 =
      [⟨"clinic-" ++ inv1.clinicId, "payment-received"⟩] ∧
    (createAppointment apptState1 "a3" apptReq1).2.2 = [] :=
  ⟨socket_emissions.1 billState1 "i3" "INV-0003" 2 invReq1
     (newInvoice "i3" "INV-0003" 2 invReq1) rfl,
   socket_emissions.2.1 billState1 "y2" 1 payReq1 inv1
     ⟨"y2", "i1", 60, PaymentMethod.CASH, none, PaymentStatus.SUCCESS, 1, none⟩
     (by decide)
     (by simp [createPayment, billState1, payReq1, inv1, pay1, paymentsOf,
           successPaidAmount]
         norm_num),
   socket_emissions.2.2 apptState1 "a3" apptReq1⟩

end VetPintar
